import Mathlib

/-!
Verification of the grease-pencil contact-sheet PDF generator
(`source/blender/io/gpencil/intern/gpencil_io_sheet.cc`).

The C++ code is embedded shallowly: `uint32_t` arithmetic becomes `Nat`
arithmetic with an explicit `% 2^32` where a multiplication may wrap,
`float` arithmetic becomes exact rational (`ℚ`) arithmetic, and the external
collaborators (the PDF library and the image loading pipeline) become
boolean / integer oracles.
-/

namespace ContactSheet

/-- The modulus of `uint32_t` arithmetic, `2^32`. -/
def U32 : Nat := 4294967296

/-- `PAGE_MARGIN_X` from the source. -/
def PAGE_MARGIN_X : ℚ := 80

/-- `PAGE_MARGIN_Y` from the source. -/
def PAGE_MARGIN_Y : ℚ := 80

/-- The fields of the `ContactSheetPDF` class that the layout computations
read: layout parameters, derived canvas size, and the pagination counters. -/
structure ContactSheetPDF where
  rows_ : Nat
  cols_ : Nat
  len : Nat
  page_size_ : ℚ × ℚ
  canvas_size_ : ℚ × ℚ
  bypage_ : Nat
  totpages_ : Nat
deriving Repr, DecidableEq

/-- The constructor `ContactSheetPDF::ContactSheetPDF`: copies the layout
parameters, derives the canvas size by subtracting both margins from the page
size on each axis, and computes `bypage_ = rows_ * cols_` (a `uint32_t`
product) and `totpages_ = len / bypage_`, incremented once more when that
truncating division left a remainder. -/
def mkContactSheetPDF (page_x page_y : ℚ) (rows cols len : Nat) : ContactSheetPDF :=
  let bypage := (rows * cols) % U32
  let tp := len / bypage
  { rows_ := rows
    cols_ := cols
    len := len
    page_size_ := (page_x, page_y)
    canvas_size_ := (page_x - PAGE_MARGIN_X * 2, page_y - PAGE_MARGIN_Y * 2)
    bypage_ := bypage
    totpages_ := if tp * bypage < len then tp + 1 else tp }

/-- The inner column loop of `ContactSheetPDF::add_newpage`: at row `r`, with
`n` columns still to visit and the current column index `c`, it records one
`(idx, row, col)` placement attempt, increments the running global index
`idx`, and clears the `doit` flag (stopping the whole iteration) as soon as
`idx` reaches `len`.  Returns the attempts, the final index and `doit`. -/
def colLoop (r len : Nat) : Nat → Nat → Nat → List (Nat × Nat × Nat) × Nat × Bool
  | 0, _, idx => ([], idx, true)
  | n + 1, c, idx =>
    if idx + 1 = len then ([(idx, r, c)], idx + 1, false)
    else
      let rest := colLoop r len n (c + 1) (idx + 1)
      ((idx, r, c) :: rest.1, rest.2.1, rest.2.2)

/-- The outer row loop of `ContactSheetPDF::add_newpage`: rows are visited
from `rows - 1` down to `0`.  Here `n` is the number of rows still to visit,
so the current row index is `n - 1`; the running global index is chained
through `colLoop` and iteration stops as soon as `doit` turns false. -/
def rowLoop (cols len : Nat) : Nat → Nat → List (Nat × Nat × Nat)
  | 0, _ => []
  | n + 1, idx =>
    let res := colLoop n len cols 0 idx
    if res.2.2 then res.1 ++ rowLoop cols len n res.2.1 else res.1

/-- The placement attempts `(global index, row, col)` made by the nested
loop at the end of `ContactSheetPDF::add_newpage`, for a page whose first
item has global index `start`. -/
def pageCells (rows cols start len : Nat) : List (Nat × Nat × Nat) :=
  rowLoop cols len rows start

/-- The geometry computed by `ContactSheetPDF::get_thumbnail_size`:
`thumb_size_`, `gap_size_` and `offset_`. -/
structure ThumbGeo where
  thumb : ℚ × ℚ
  gap : ℚ × ℚ
  offset : ℚ × ℚ
deriving Repr, DecidableEq

/-- `ContactSheetPDF::get_thumbnail_size`, over exact rationals: from the
first image's size `(iw, ih)` derive the aspect quotient `iw / ih` and an
oversize factor (`0` for wide images whose quotient exceeds `2`, else
`0.25`); the thumbnail width is the smaller of `canvas_x / (cols + oversize)`
and `canvas_y / (rows + oversize)`, the height follows the image's aspect;
the leftover canvas space on each axis gives the gap, and the offset is the
page margin plus half a gap. -/
def get_thumbnail_size (canvas_x canvas_y : ℚ) (rows cols : Nat) (iw ih : ℤ) :
    ThumbGeo :=
  let aspect : ℚ := (iw : ℚ) / (ih : ℚ)
  let oversize : ℚ := if 2 < aspect then 0 else 1 / 4
  let colsq : ℚ := (cols : ℚ)
  let rowsq : ℚ := (rows : ℚ)
  let x_size : ℚ := canvas_x / (colsq + oversize)
  let y_size : ℚ := canvas_y / (rowsq + oversize)
  let tx : ℚ := if x_size ≤ y_size then x_size else y_size
  let ty : ℚ := tx * ((ih : ℚ) / (iw : ℚ))
  let gx : ℚ := (canvas_x - tx * colsq) / colsq
  let gy : ℚ := (canvas_y - ty * rowsq) / rowsq
  { thumb := (tx, ty)
    gap := (gx, gy)
    offset := (PAGE_MARGIN_X + gx * (1 / 2), PAGE_MARGIN_Y + gy * (1 / 2)) }

/-- The position at which `ContactSheetPDF::draw_thumbnail` draws the
thumbnail of cell `(row, col)`: `offset + (thumb + gap) * coordinate` on
each axis. -/
def draw_thumbnail_pos (g : ThumbGeo) (row col : Nat) : ℚ × ℚ :=
  (g.offset.1 + (g.thumb.1 + g.gap.1) * (col : ℚ),
    g.offset.2 + (g.thumb.2 + g.gap.2) * (row : ℚ))

/-- Outcome of one successful `ContactSheetPDF::add_newpage` call: the page
frame flag, the placement attempts made by the loop, and the subset of
attempts whose image pipeline succeeded (those cells receive a thumbnail;
the failed ones stay blank). -/
structure PageOut where
  frameDrawn : Bool
  attempted : List (Nat × Nat × Nat)
  drawn : List (Nat × Nat × Nat)
deriving Repr, DecidableEq

/-- `ContactSheetPDF::add_newpage`, with the external image pipeline as the
oracle `loadOk` (`loadOk i = true` when item `i`'s load-scale-save-embed
pipeline succeeds).  On page 0 the first item's image is loaded to derive the
thumbnail size; if that load fails the function returns `false` (here
`none`) before computing the geometry, drawing the page frame or any
thumbnail.  Otherwise the frame is drawn and the nested loop attempts every
cell from `start_idx = pagenum * bypage_`, drawing the cells whose load
succeeded and leaving the failed ones blank. -/
def add_newpage (s : ContactSheetPDF) (loadOk : Nat → Bool) (pagenum : Nat) :
    Option PageOut :=
  let start_idx := pagenum * s.bypage_ % U32
  if pagenum = 0 ∧ loadOk 0 = false then none
  else
    let cells := pageCells s.rows_ s.cols_ start_idx s.len
    some { frameDrawn := true
           attempted := cells
           drawn := cells.filter fun t => loadOk t.1 }

/-- An entry of the caller-supplied `ContactSheetItem` array: a display
name, an image path, and the pipe-separated annotation text, each modelled
as the character content of the C string. -/
structure ContactSheetItem where
  name : List Char
  path : List Char
  data : List Char
deriving Repr, DecidableEq

/-- The NUL byte that `strtok_s` writes over a consumed delimiter. -/
def NUL : Char := Char.ofNat 0

/-- The delimiter-skipping phase of `strtok_s` over the buffer suffix `s`:
leading pipe delimiters are passed over unchanged.  Returns the skipped
prefix and the remaining suffix. -/
def delimSkip : List Char → List Char × List Char
  | [] => ([], [])
  | ch :: t =>
    if ch = '|' then
      let rest := delimSkip t
      (ch :: rest.1, rest.2)
    else ([], ch :: t)

/-- The token-scanning phase of `strtok_s`: characters are consumed up to
the next pipe delimiter, which is overwritten with NUL, or up to the end of
the buffer.  Returns the consumed prefix as mutated and the remaining
suffix. -/
def tokenScan : List Char → List Char × List Char
  | [] => ([], [])
  | ch :: t =>
    if ch = '|' then ([NUL], t)
    else
      let rest := tokenScan t
      (ch :: rest.1, rest.2)

/-- One `strtok_s` call on the buffer suffix `s`: skip leading delimiters;
if the buffer is exhausted return `none` (no token, no mutation), else scan
one token.  Returns the consumed prefix as left in the buffer and the
unvisited suffix. -/
def strtokStep (s : List Char) : Option (List Char × List Char) :=
  match delimSkip s with
  | (_, []) => none
  | (skipped, x :: xs) =>
    let scanned := tokenScan (x :: xs)
    some (skipped ++ scanned.1, scanned.2)

/-- Up to `n` further `strtok_s` calls on the buffer suffix `s`, returning
the buffer contents they leave behind. -/
def strtokLoop : Nat → List Char → List Char
  | 0, s => s
  | n + 1, s =>
    match strtokStep s with
    | none => s
    | some (consumed, rest) => consumed ++ strtokLoop n rest

/-- The in-place effect of `ContactSheetPDF::draw_thumbnail` on the `data`
buffer of the drawn item: when the buffer is nonempty it is tokenized with
`strtok_s` on pipes — one call for the first caption line, then (unless the
buffer is already exhausted) up to four further calls for the extra caption
lines, the last of which is fetched but not printed.  Each consumed
delimiter is overwritten by NUL. -/
def drawThumbData (data : List Char) : List Char :=
  match data with
  | [] => []
  | _ :: _ =>
    match strtokStep data with
    | none => data
    | some (consumed, rest) => consumed ++ strtokLoop 4 rest

/-- The effect of `ContactSheetPDF::draw_thumbnail` on the full item: the
thumbnail, frame and name rendering read the item, and the annotation
tokenization rewrites `data` in place. -/
def drawItem (it : ContactSheetItem) : ContactSheetItem :=
  { it with data := drawThumbData it.data }

/-- Applies `drawItem` to the items whose global index is in `drawnIdx`,
leaving every other item untouched; `i` is the index of the first list
entry. -/
def updateItems (drawnIdx : List Nat) : Nat → List ContactSheetItem → List ContactSheetItem
  | _, [] => []
  | i, it :: rest =>
    (if i ∈ drawnIdx then drawItem it else it) :: updateItems drawnIdx (i + 1) rest

/-- The effect of one `ContactSheetPDF::add_newpage` call on the
caller-supplied item array: every item whose cell was drawn goes through
`draw_thumbnail` (tokenizing its annotation buffer in place); a failed page
leaves the array untouched. -/
def add_newpage_items (s : ContactSheetPDF) (loadOk : Nat → Bool) (pagenum : Nat)
    (items : List ContactSheetItem) : List ContactSheetItem :=
  match add_newpage s loadOk pagenum with
  | none => items
  | some out => updateItems (out.drawn.map fun t => t.1) 0 items

/-- `ContactSheetPDF::save_document`: calls `HPDF_SaveToFile`, whose status
is the oracle `res`, and returns true exactly on status 0. -/
def save_document (res : ℤ) : Bool :=
  if res = 0 then true else false

/-- Result of a full document run: the boolean outcome surfaced to the
caller, the number of non-fatal per-item warnings, whether `free_document`
was invoked, and how many times the live document handle was released. -/
structure RunResult where
  success : Bool
  warningCount : Nat
  freeInvoked : Bool
  freeCount : Nat
deriving Repr, DecidableEq

/-- The items whose image pipeline fails, counted over the whole document. -/
def countWarnings (loadOk : Nat → Bool) (len : Nat) : Nat :=
  ((List.range len).filter fun i => ! loadOk i).length

/-- Modelled from the spec: the orchestration entry point
`create_contact_sheet_pdf` (declared in `gpencil_io.h`; its definition is
not among these sources).  Per the spec's page-assembly state machine
`Created → (per page: FrameDrawn → ItemsPlaced) → Saved → Freed`:
document-creation failure aborts before any page; a failed first-page
thumbnail-size derivation aborts the page loop and is reported; per-item
load failures never abort and are reported as a non-fatal warning count; the
save status is surfaced to the caller; and `free_document` is invoked on
every exit path, releasing the document handle exactly once whenever it was
created. -/
def create_contact_sheet_pdf (s : ContactSheetPDF) (createOk : Bool)
    (loadOk : Nat → Bool) (saveRes : ℤ) : RunResult :=
  if createOk = false then
    { success := false, warningCount := 0, freeInvoked := true, freeCount := 0 }
  else if 0 < s.totpages_ ∧ loadOk 0 = false then
    { success := false, warningCount := 0, freeInvoked := true, freeCount := 1 }
  else
    { success := save_document saveRes
      warningCount := countWarnings loadOk s.len
      freeInvoked := true
      freeCount := 1 }

/-- Relation between an original buffer character and the character left at
the same position after tokenization: it is unchanged, or it was a pipe
delimiter and is now NUL. -/
def pipeToNul (x y : Char) : Prop :=
  y = x ∨ (x = '|' ∧ y = NUL)

/-- Relation between a caller-supplied item and the same item after the
engine ran: `name` and `path` are untouched, and each `data` character is
either unchanged or was a pipe overwritten with NUL. -/
def itemPreserved (a b : ContactSheetItem) : Prop :=
  b.name = a.name ∧ b.path = a.path ∧ List.Forall₂ pipeToNul a.data b.data

/-- The truncate-then-bump pagination count equals the ceiling division
`(len + K - 1) / K`. -/
lemma div_bump_eq_ceil (len K : Nat) (hK : 0 < K) :
    (if len / K * K < len then len / K + 1 else len / K) = (len + K - 1) / K := by
  obtain ⟨q, r, hr, hlen⟩ : ∃ q r, r < K ∧ len = K * q + r :=
    ⟨len / K, len % K, Nat.mod_lt _ hK, (Nat.div_add_mod len K).symm⟩
  have hq : len / K = q := by
    rw [hlen, Nat.mul_add_div hK, Nat.div_eq_of_lt hr, Nat.add_zero]
  rcases Nat.eq_zero_or_pos r with hr0 | hr0
  · have h1 : len + K - 1 = K * q + (K - 1) := by omega
    have h3 : (K - 1) / K = 0 := Nat.div_eq_of_lt (by omega)
    have h2 : ¬ len / K * K < len := by
      rw [hq, hlen, hr0, Nat.add_zero, Nat.mul_comm q K]
      exact Nat.lt_irrefl _
    rw [if_neg h2, hq, h1, Nat.mul_add_div hK, h3, Nat.add_zero]
  · have h1 : len + K - 1 = K * (q + 1) + (r - 1) := by
      have h4 : K * (q + 1) = K * q + K := Nat.mul_succ K q
      omega
    have h3 : (r - 1) / K = 0 := Nat.div_eq_of_lt (by omega)
    have h2 : len / K * K < len := by
      rw [hq, hlen, Nat.mul_comm q K]; omega
    rw [if_pos h2, hq, h1, Nat.mul_add_div hK, h3, Nat.add_zero]

/-- The ceiling division covers all items: `len ≤ K * ceil(len/K)`. -/
lemma ceil_mul_ge (len K : Nat) (hK : 0 < K) : len ≤ K * ((len + K - 1) / K) := by
  rcases Nat.eq_zero_or_pos len with h0 | h0
  · simp [h0]
  · have h1 : (len + K - 1) / K = (len - 1) / K + 1 := by
      have : len + K - 1 = K * 1 + (len - 1) := by omega
      rw [this, Nat.mul_add_div hK]; omega
    have h2 : (len - 1) % K < K := Nat.mod_lt _ hK
    have h3 := Nat.div_add_mod (len - 1) K
    rw [h1, Nat.mul_succ]
    omega

/-- Every page before the last starts strictly inside the item list:
`K * (ceil(len/K) - 1) < len` when there is at least one item. -/
lemma ceil_pred_mul_lt (len K : Nat) (hK : 0 < K) (hlen : 0 < len) :
    K * ((len + K - 1) / K - 1) < len := by
  have h2 := Nat.div_add_mod (len + K - 1) K
  have h3 : (len + K - 1) % K < K := Nat.mod_lt _ hK
  rcases Nat.eq_zero_or_pos ((len + K - 1) / K) with h0 | h0
  · rw [h0]; simpa using hlen
  · obtain ⟨t, ht⟩ : ∃ t, (len + K - 1) / K = t + 1 :=
      ⟨(len + K - 1) / K - 1, by omega⟩
    rw [ht] at h2 ⊢
    have h4 : K * (t + 1) = K * t + K := Nat.mul_succ K t
    simp only [Nat.add_sub_cancel]
    omega

/-- The ceiling division is zero exactly on the empty list. -/
lemma ceil_eq_zero_iff (len K : Nat) (hK : 0 < K) :
    (len + K - 1) / K = 0 ↔ len = 0 := by
  rw [Nat.div_eq_zero_iff (by omega)]
  omega

/-- The constructor's `totpages_`, rewritten as the ceiling division, under
the no-overflow range of the `uint32_t` product `rows * cols`. -/
lemma mk_totpages_eq_ceil (page_x page_y : ℚ) (rows cols len : Nat)
    (hK : 0 < rows * cols) (hfit : rows * cols < U32) :
    (mkContactSheetPDF page_x page_y rows cols len).totpages_ =
      (len + rows * cols - 1) / (rows * cols) := by
  show (if len / (rows * cols % U32) * (rows * cols % U32) < len
      then len / (rows * cols % U32) + 1
      else len / (rows * cols % U32)) = _
  rw [Nat.mod_eq_of_lt hfit]
  exact div_bump_eq_ceil len (rows * cols) hK

/-- C1.  For every item count `N ≥ 0` and every `rows ≥ 1`, `cols ≥ 1` whose
product fits a `uint32_t` (so the capacity is `K = rows * cols > 0`), the
constructor sets `totpages_ = ceil(N / K)` — stated as the Nat ceiling
division `(N + K - 1) / K` — and `totpages_ = 0` if and only if `N = 0`. -/
theorem C1_totpages_ceil (page_x page_y : ℚ) (rows cols len : Nat)
    (hr : 1 ≤ rows) (hc : 1 ≤ cols) (hfit : rows * cols < U32) (_hlen : len < U32) :
    (mkContactSheetPDF page_x page_y rows cols len).totpages_ =
      (len + rows * cols - 1) / (rows * cols) ∧
    ((mkContactSheetPDF page_x page_y rows cols len).totpages_ = 0 ↔ len = 0) := by
  have hK : 0 < rows * cols := Nat.mul_pos hr hc
  have h1 := mk_totpages_eq_ceil page_x page_y rows cols len hK hfit
  exact ⟨h1, by rw [h1]; exact ceil_eq_zero_iff len (rows * cols) hK⟩

/-- Witness for C1 at `N = 7`, `rows = 2`, `cols = 3`: `totpages_ = 2`. -/
theorem C1_totpages_ceil_witness :
    (1 ≤ 2 ∧ 1 ≤ 3 ∧ 2 * 3 < U32 ∧ 7 < U32) ∧
    ((mkContactSheetPDF 3840 2160 2 3 7).totpages_ = (7 + 2 * 3 - 1) / (2 * 3) ∧
      ((mkContactSheetPDF 3840 2160 2 3 7).totpages_ = 0 ↔ 7 = 0)) :=
  ⟨⟨by decide, by decide, by decide, by decide⟩,
    C1_totpages_ceil 3840 2160 2 3 7 (by decide) (by decide) (by decide) (by decide)⟩

/-- Characterization of the column loop: starting strictly inside the item
list it attempts `min n (len - idx)` consecutive items, one per column, and
`doit` stays set exactly when the item list was not exhausted. -/
lemma colLoop_spec (r len : Nat) (n c idx : Nat) (h : idx < len) :
    colLoop r len n c idx =
      ((List.range (min n (len - idx))).map (fun j => (idx + j, r, c + j)),
        idx + min n (len - idx), decide (idx + min n (len - idx) < len)) := by
  induction n generalizing c idx with
  | zero => simp [colLoop, h]
  | succ n ih =>
    by_cases he : idx + 1 = len
    · have hm : min (n + 1) (len - idx) = 1 := by omega
      rw [hm]
      simp [colLoop, he, List.range_succ]
    · have h1 : idx + 1 < len := by omega
      have hm : min (n + 1) (len - idx) = min n (len - (idx + 1)) + 1 := by omega
      rw [hm]
      simp only [colLoop, if_neg he, ih (c + 1) (idx + 1) h1, Prod.mk.injEq]
      refine ⟨?_, by omega, ?_⟩
      · rw [List.range_succ_eq_map, List.map_cons, List.map_map]
        simp only [List.cons.injEq]
        refine ⟨by simp, ?_⟩
        refine List.map_congr_left fun j _ => ?_
        simp only [Function.comp_apply, Nat.succ_eq_add_one, Prod.mk.injEq,
          true_and, and_true]
        omega
      · have h2 : idx + (min n (len - (idx + 1)) + 1) =
            idx + 1 + min n (len - (idx + 1)) := by omega
        rw [h2]

/-- Characterization of the row loop: starting strictly inside the item list
it attempts `min (n * cols) (len - idx)` consecutive items; the `j`-th one is
placed in row `n - 1 - j / cols` (rows fill from the bottom index downward)
and column `j % cols`. -/
lemma rowLoop_spec (cols len : Nat) (hc : 1 ≤ cols) (n : Nat) :
    ∀ idx, idx < len →
    rowLoop cols len n idx =
      (List.range (min (n * cols) (len - idx))).map
        (fun j => (idx + j, n - 1 - j / cols, j % cols)) := by
  induction n with
  | zero => intro idx h; simp [rowLoop]
  | succ n ih =>
    intro idx h
    rw [rowLoop, colLoop_spec n len cols 0 idx h]
    by_cases hd : idx + min cols (len - idx) < len
    · have hm1 : min cols (len - idx) = cols := by omega
      rw [hm1] at hd ⊢
      simp only [decide_eq_true_eq, if_pos hd]
      rw [ih (idx + cols) hd]
      have hsucc : (n + 1) * cols = n * cols + cols := Nat.succ_mul n cols
      have hsplit : min ((n + 1) * cols) (len - idx) =
          cols + min (n * cols) (len - (idx + cols)) := by
        rw [hsucc]; omega
      rw [hsplit, List.range_add, List.map_append, List.map_map]
      refine congrArg₂ List.append ?_ ?_
      · refine List.map_congr_left fun j hj => ?_
        rw [List.mem_range] at hj
        rw [Nat.div_eq_of_lt hj, Nat.mod_eq_of_lt hj]
        simp
      · refine List.map_congr_left fun j _ => ?_
        simp only [Function.comp_apply]
        have h7 : (cols + j) / cols = j / cols + 1 := by
          rw [Nat.add_comm cols j]; exact Nat.add_div_right j hc
        have h8 : (cols + j) % cols = j % cols := Nat.add_mod_left cols j
        rw [h7, h8]
        simp only [Prod.mk.injEq, true_and, and_true]
        omega
    · have hm1 : min cols (len - idx) = len - idx := by omega
      rw [hm1] at hd ⊢
      simp only [decide_eq_true_eq, if_neg hd]
      have hm2 : min ((n + 1) * cols) (len - idx) = len - idx := by
        have hsucc : (n + 1) * cols = n * cols + cols := Nat.succ_mul n cols
        omega
      rw [hm2]
      refine List.map_congr_left fun j hj => ?_
      rw [List.mem_range] at hj
      have hjc : j < cols := by omega
      rw [Nat.div_eq_of_lt hjc, Nat.mod_eq_of_lt hjc]
      simp

/-- The page loop attempts exactly `min (rows * cols) (len - start)` items,
the `j`-th being item `start + j` at row `rows - 1 - j / cols`, column
`j % cols`. -/
lemma pageCells_eq (rows cols start len : Nat) (hc : 1 ≤ cols) (h : start < len) :
    pageCells rows cols start len =
      (List.range (min (rows * cols) (len - start))).map
        (fun j => (start + j, rows - 1 - j / cols, j % cols)) :=
  rowLoop_spec cols len hc rows start h

/-- The start index of a page below `totpages_` lies strictly inside the
item list. -/
lemma page_start_lt (rows cols len p : Nat) (hK : 0 < rows * cols)
    (hlen0 : 0 < len)
    (hp : p < (len + rows * cols - 1) / (rows * cols)) :
    p * (rows * cols) < len := by
  have h1 := ceil_pred_mul_lt len (rows * cols) hK hlen0
  have h2 : p ≤ (len + rows * cols - 1) / (rows * cols) - 1 := by omega
  calc p * (rows * cols)
      ≤ ((len + rows * cols - 1) / (rows * cols) - 1) * (rows * cols) :=
        Nat.mul_le_mul_right _ h2
    _ = (rows * cols) * ((len + rows * cols - 1) / (rows * cols) - 1) :=
        Nat.mul_comm _ _
    _ < len := h1

/-- C2.  For every page number `p < totpages_` (with `N > 0` items and a
fitting capacity `K = rows * cols > 0`), `add_newpage p` attempts to place
exactly the items with global indices in `[p*K, min((p+1)*K, N))`, in
increasing index order; every page before the last therefore attempts
exactly `K` items and the last page attempts `N - K*(totpages_ - 1)` items,
the loop stopping the moment the global item count is exhausted. -/
theorem C2_page_item_ranges (page_x page_y : ℚ) (rows cols len p : Nat)
    (loadOk : Nat → Bool)
    (hr : 1 ≤ rows) (hc : 1 ≤ cols) (hfit : rows * cols < U32) (hlen : len < U32)
    (hlen0 : 0 < len) (hl0 : loadOk 0 = true)
    (hp : p < (mkContactSheetPDF page_x page_y rows cols len).totpages_) :
    (add_newpage (mkContactSheetPDF page_x page_y rows cols len) loadOk p).map
        PageOut.attempted = some (pageCells rows cols (p * (rows * cols)) len) ∧
    (pageCells rows cols (p * (rows * cols)) len).map (fun t => t.1) =
      List.range' (p * (rows * cols))
        (min ((p + 1) * (rows * cols)) len - p * (rows * cols)) ∧
    (p + 1 < (mkContactSheetPDF page_x page_y rows cols len).totpages_ →
      (pageCells rows cols (p * (rows * cols)) len).length = rows * cols) ∧
    (p + 1 = (mkContactSheetPDF page_x page_y rows cols len).totpages_ →
      (pageCells rows cols (p * (rows * cols)) len).length =
        len - (rows * cols) *
          ((mkContactSheetPDF page_x page_y rows cols len).totpages_ - 1)) := by
  have hK : 0 < rows * cols := Nat.mul_pos hr hc
  have hT := mk_totpages_eq_ceil page_x page_y rows cols len hK hfit
  have hp' : p < (len + rows * cols - 1) / (rows * cols) := by rw [← hT]; exact hp
  have hstart : p * (rows * cols) < len := page_start_lt rows cols len p hK hlen0 hp'
  have hcells := pageCells_eq rows cols (p * (rows * cols)) len hc hstart
  have hsm : (p + 1) * (rows * cols) = p * (rows * cols) + rows * cols :=
    Nat.succ_mul p (rows * cols)
  refine ⟨?_, ?_, ?_, ?_⟩
  · have hbp : (mkContactSheetPDF page_x page_y rows cols len).bypage_ =
        rows * cols := Nat.mod_eq_of_lt hfit
    have hcond : ¬ (p = 0 ∧ loadOk 0 = false) := by simp [hl0]
    simp only [add_newpage, hbp, if_neg hcond, Option.map_some]
    rw [Nat.mod_eq_of_lt (lt_trans hstart hlen)]
    rfl
  · rw [hcells]
    have hcount : min ((p + 1) * (rows * cols)) len - p * (rows * cols) =
        min (rows * cols) (len - p * (rows * cols)) := by omega
    rw [hcount, List.range'_eq_map_range, List.map_map]
    rfl
  · intro h2
    rw [hT] at h2
    have h3 := ceil_pred_mul_lt len (rows * cols) hK hlen0
    have e2 : (p + 1) * (rows * cols) ≤
        ((len + rows * cols - 1) / (rows * cols) - 1) * (rows * cols) :=
      Nat.mul_le_mul_right _ (by omega)
    have e3 : ((len + rows * cols - 1) / (rows * cols) - 1) * (rows * cols) =
        (rows * cols) * ((len + rows * cols - 1) / (rows * cols) - 1) :=
      Nat.mul_comm _ _
    rw [hcells, List.length_map, List.length_range]
    omega
  · intro h2
    rw [hT] at h2 ⊢
    have e4 := ceil_mul_ge len (rows * cols) hK
    rw [← h2] at e4 ⊢
    have e5 : rows * cols * (p + 1) = rows * cols * p + rows * cols :=
      Nat.mul_succ _ _
    have e6 : rows * cols * p = p * (rows * cols) := Nat.mul_comm _ _
    rw [hcells, List.length_map, List.length_range]
    simp only [Nat.add_sub_cancel]
    omega

/-- Witness for C2 at `rows = 2`, `cols = 3`, `N = 7`, `p = 1` (the last
page): the page attempts `7 - 6 * 1 = 1` item. -/
theorem C2_page_item_ranges_witness :
    (1 + 1 = (mkContactSheetPDF (3840 : ℚ) 2160 2 3 7).totpages_) ∧
    (pageCells 2 3 (1 * (2 * 3)) 7).length =
      7 - (2 * 3) * ((mkContactSheetPDF (3840 : ℚ) 2160 2 3 7).totpages_ - 1) :=
  ⟨by decide,
    (C2_page_item_ranges 3840 2160 2 3 7 1 (fun _ => true) (by decide) (by decide)
      (by decide) (by decide) (by decide) rfl (by decide)).2.2.2 (by decide)⟩

/-- C5.  Within a page starting at item `p * K`, the `j`-th item attempted
is the one with global index `p*K + j`, assigned the cell
`row = rows - 1 - j / cols`, `col = j % cols` (bottom row index filled
first, left to right), and `draw_thumbnail` places that cell's thumbnail at
`x = offset + col * (thumb + gap)` and `y = offset + row * (thumb + gap)`. -/
theorem C5_cell_coords (rows cols len p j : Nat) (g : ThumbGeo)
    (hc : 1 ≤ cols) (hstart : p * (rows * cols) < len)
    (hj : j < min (rows * cols) (len - p * (rows * cols))) :
    (pageCells rows cols (p * (rows * cols)) len)[j]? =
      some (p * (rows * cols) + j, rows - 1 - j / cols, j % cols) ∧
    draw_thumbnail_pos g (rows - 1 - j / cols) (j % cols) =
      (g.offset.1 + (g.thumb.1 + g.gap.1) * ((j % cols : Nat) : ℚ),
        g.offset.2 + (g.thumb.2 + g.gap.2) * ((rows - 1 - j / cols : Nat) : ℚ)) := by
  refine ⟨?_, rfl⟩
  rw [pageCells_eq rows cols (p * (rows * cols)) len hc hstart,
    List.getElem?_map, List.getElem?_range hj]
  rfl

/-- Witness for C5 at `rows = 2`, `cols = 3`, `N = 7`, `p = 0`, `j = 4`:
the fifth attempt is item 4 in row 0, column 1. -/
theorem C5_cell_coords_witness :
    (1 ≤ 3 ∧ 0 * (2 * 3) < 7 ∧ 4 < min (2 * 3) (7 - 0 * (2 * 3))) ∧
    ((pageCells 2 3 (0 * (2 * 3)) 7)[4]? =
        some (0 * (2 * 3) + 4, 2 - 1 - 4 / 3, 4 % 3) ∧
      draw_thumbnail_pos (get_thumbnail_size 3680 2000 2 3 1920 1080)
          (2 - 1 - 4 / 3) (4 % 3) =
        ((get_thumbnail_size 3680 2000 2 3 1920 1080).offset.1 +
            ((get_thumbnail_size 3680 2000 2 3 1920 1080).thumb.1 +
              (get_thumbnail_size 3680 2000 2 3 1920 1080).gap.1) * ((4 % 3 : Nat) : ℚ),
          (get_thumbnail_size 3680 2000 2 3 1920 1080).offset.2 +
            ((get_thumbnail_size 3680 2000 2 3 1920 1080).thumb.2 +
              (get_thumbnail_size 3680 2000 2 3 1920 1080).gap.2) *
              ((2 - 1 - 4 / 3 : Nat) : ℚ))) :=
  ⟨⟨by decide, by decide, by decide⟩,
    C5_cell_coords 2 3 7 0 4 (get_thumbnail_size 3680 2000 2 3 1920 1080)
      (by decide) (by decide) (by decide)⟩

/-- C7.  If the first item's image cannot be loaded, `add_newpage 0` fails
outright: it returns `false` (modelled `none`), computing no thumbnail
geometry and drawing neither the page frame nor any item thumbnail. -/
theorem C7_first_load_failure_aborts (s : ContactSheetPDF) (loadOk : Nat → Bool)
    (hfail : loadOk 0 = false) :
    add_newpage s loadOk 0 = none := by
  simp [add_newpage, hfail]

/-- Witness for C7 with an always-failing loader. -/
theorem C7_first_load_failure_aborts_witness :
    ((fun _ : Nat => false) 0 = false) ∧
    add_newpage (mkContactSheetPDF 3840 2160 2 3 7) (fun _ => false) 0 = none :=
  ⟨rfl, C7_first_load_failure_aborts (mkContactSheetPDF 3840 2160 2 3 7)
    (fun _ => false) rfl⟩

/-- C3.  For every first-image size `iw ≥ 1`, `ih ≥ 1` and every grid
`rows ≥ 1`, `cols ≥ 1`: the oversize factor is `0` when `iw/ih > 2` and
`0.25` otherwise, the thumbnail width is
`min (canvas_x / (cols + oversize)) (canvas_y / (rows + oversize))`, the
thumbnail height is the width times `ih/iw`, and hence the height/width
quotient of the thumbnail equals the first item's `ih/iw` (whenever the
width is nonzero), regardless of any other item. -/
theorem C3_thumbnail_size (canvas_x canvas_y : ℚ) (rows cols : Nat) (iw ih : ℤ)
    (_hiw : 1 ≤ iw) (_hih : 1 ≤ ih) (_hr : 1 ≤ rows) (_hc : 1 ≤ cols) :
    (get_thumbnail_size canvas_x canvas_y rows cols iw ih).thumb.1 =
      min (canvas_x / ((cols : ℚ) + if 2 < (iw : ℚ) / (ih : ℚ) then 0 else 1 / 4))
        (canvas_y / ((rows : ℚ) + if 2 < (iw : ℚ) / (ih : ℚ) then 0 else 1 / 4)) ∧
    (get_thumbnail_size canvas_x canvas_y rows cols iw ih).thumb.2 =
      (get_thumbnail_size canvas_x canvas_y rows cols iw ih).thumb.1 *
        ((ih : ℚ) / (iw : ℚ)) ∧
    ((get_thumbnail_size canvas_x canvas_y rows cols iw ih).thumb.1 ≠ 0 →
      (get_thumbnail_size canvas_x canvas_y rows cols iw ih).thumb.2 /
        (get_thumbnail_size canvas_x canvas_y rows cols iw ih).thumb.1 =
        (ih : ℚ) / (iw : ℚ)) := by
  refine ⟨?_, rfl, fun h => ?_⟩
  · rw [min_def]
    rfl
  · have e : (get_thumbnail_size canvas_x canvas_y rows cols iw ih).thumb.2 =
        (get_thumbnail_size canvas_x canvas_y rows cols iw ih).thumb.1 *
          ((ih : ℚ) / (iw : ℚ)) := rfl
    rw [e, mul_comm, mul_div_assoc, div_self h, mul_one]

/-- Witness for C3 at the spec's example (`3680 × 2000` canvas, `2 × 3`
grid, first image `1920 × 1080`): the thumbnail keeps the `1080/1920`
aspect. -/
theorem C3_thumbnail_size_witness :
    ((1 : ℤ) ≤ 1920 ∧ (1 : ℤ) ≤ 1080 ∧ 1 ≤ 2 ∧ 1 ≤ 3) ∧
    (get_thumbnail_size 3680 2000 2 3 1920 1080).thumb.2 /
      (get_thumbnail_size 3680 2000 2 3 1920 1080).thumb.1 = (1080 : ℚ) / 1920 :=
  ⟨⟨by decide, by decide, by decide, by decide⟩,
    (C3_thumbnail_size 3680 2000 2 3 1920 1080 (by decide) (by decide) (by decide)
      (by decide)).2.2 (by norm_num [get_thumbnail_size])⟩

/-- C4.  The canvas leaves an 80-point margin on each side of each axis, the
gaps are the leftover canvas space divided by the respective grid count, the
offsets are the margin plus half a gap, and a negative gap is not clamped
(the concrete instance `canvas 100 × 100`, `1 × 1` grid, image `1 × 10`
yields a negative vertical gap). -/
theorem C4_gap_offset (page_x page_y : ℚ) (rows cols len : Nat) (iw ih : ℤ)
    (_hr : 1 ≤ rows) (_hc : 1 ≤ cols) :
    ((mkContactSheetPDF page_x page_y rows cols len).canvas_size_.1 =
        page_x - 80 * 2 ∧
      (mkContactSheetPDF page_x page_y rows cols len).canvas_size_.2 =
        page_y - 80 * 2) ∧
    (get_thumbnail_size (mkContactSheetPDF page_x page_y rows cols len).canvas_size_.1
          (mkContactSheetPDF page_x page_y rows cols len).canvas_size_.2
          rows cols iw ih).gap.1 =
      ((mkContactSheetPDF page_x page_y rows cols len).canvas_size_.1 -
          (get_thumbnail_size
              (mkContactSheetPDF page_x page_y rows cols len).canvas_size_.1
              (mkContactSheetPDF page_x page_y rows cols len).canvas_size_.2
              rows cols iw ih).thumb.1 * (cols : ℚ)) / (cols : ℚ) ∧
    (get_thumbnail_size (mkContactSheetPDF page_x page_y rows cols len).canvas_size_.1
          (mkContactSheetPDF page_x page_y rows cols len).canvas_size_.2
          rows cols iw ih).gap.2 =
      ((mkContactSheetPDF page_x page_y rows cols len).canvas_size_.2 -
          (get_thumbnail_size
              (mkContactSheetPDF page_x page_y rows cols len).canvas_size_.1
              (mkContactSheetPDF page_x page_y rows cols len).canvas_size_.2
              rows cols iw ih).thumb.2 * (rows : ℚ)) / (rows : ℚ) ∧
    (get_thumbnail_size (mkContactSheetPDF page_x page_y rows cols len).canvas_size_.1
          (mkContactSheetPDF page_x page_y rows cols len).canvas_size_.2
          rows cols iw ih).offset.1 =
      80 + (get_thumbnail_size
          (mkContactSheetPDF page_x page_y rows cols len).canvas_size_.1
          (mkContactSheetPDF page_x page_y rows cols len).canvas_size_.2
          rows cols iw ih).gap.1 / 2 ∧
    (get_thumbnail_size (mkContactSheetPDF page_x page_y rows cols len).canvas_size_.1
          (mkContactSheetPDF page_x page_y rows cols len).canvas_size_.2
          rows cols iw ih).offset.2 =
      80 + (get_thumbnail_size
          (mkContactSheetPDF page_x page_y rows cols len).canvas_size_.1
          (mkContactSheetPDF page_x page_y rows cols len).canvas_size_.2
          rows cols iw ih).gap.2 / 2 ∧
    (get_thumbnail_size 100 100 1 1 1 10).gap.2 < 0 := by
  refine ⟨⟨rfl, rfl⟩, rfl, rfl, ?_, ?_, by norm_num [get_thumbnail_size]⟩
  · rw [show (get_thumbnail_size
        (mkContactSheetPDF page_x page_y rows cols len).canvas_size_.1
        (mkContactSheetPDF page_x page_y rows cols len).canvas_size_.2
        rows cols iw ih).offset.1 = PAGE_MARGIN_X +
          (get_thumbnail_size
            (mkContactSheetPDF page_x page_y rows cols len).canvas_size_.1
            (mkContactSheetPDF page_x page_y rows cols len).canvas_size_.2
            rows cols iw ih).gap.1 * (1 / 2) from rfl, mul_one_div]
    rfl
  · rw [show (get_thumbnail_size
        (mkContactSheetPDF page_x page_y rows cols len).canvas_size_.1
        (mkContactSheetPDF page_x page_y rows cols len).canvas_size_.2
        rows cols iw ih).offset.2 = PAGE_MARGIN_Y +
          (get_thumbnail_size
            (mkContactSheetPDF page_x page_y rows cols len).canvas_size_.1
            (mkContactSheetPDF page_x page_y rows cols len).canvas_size_.2
            rows cols iw ih).gap.2 * (1 / 2) from rfl, mul_one_div]
    rfl

/-- Witness for C4 at `page 3840 × 2160`, `2 × 3` grid, image
`1920 × 1080`. -/
theorem C4_gap_offset_witness :
    (1 ≤ 2 ∧ 1 ≤ 3) ∧
    (((mkContactSheetPDF (3840 : ℚ) 2160 2 3 7).canvas_size_.1 = 3840 - 80 * 2 ∧
        (mkContactSheetPDF (3840 : ℚ) 2160 2 3 7).canvas_size_.2 = 2160 - 80 * 2) ∧
      (get_thumbnail_size (mkContactSheetPDF (3840 : ℚ) 2160 2 3 7).canvas_size_.1
            (mkContactSheetPDF (3840 : ℚ) 2160 2 3 7).canvas_size_.2
            2 3 1920 1080).gap.1 =
        ((mkContactSheetPDF (3840 : ℚ) 2160 2 3 7).canvas_size_.1 -
            (get_thumbnail_size
                (mkContactSheetPDF (3840 : ℚ) 2160 2 3 7).canvas_size_.1
                (mkContactSheetPDF (3840 : ℚ) 2160 2 3 7).canvas_size_.2
                2 3 1920 1080).thumb.1 * ((3 : Nat) : ℚ)) / ((3 : Nat) : ℚ) ∧
      (get_thumbnail_size (mkContactSheetPDF (3840 : ℚ) 2160 2 3 7).canvas_size_.1
            (mkContactSheetPDF (3840 : ℚ) 2160 2 3 7).canvas_size_.2
            2 3 1920 1080).gap.2 =
        ((mkContactSheetPDF (3840 : ℚ) 2160 2 3 7).canvas_size_.2 -
            (get_thumbnail_size
                (mkContactSheetPDF (3840 : ℚ) 2160 2 3 7).canvas_size_.1
                (mkContactSheetPDF (3840 : ℚ) 2160 2 3 7).canvas_size_.2
                2 3 1920 1080).thumb.2 * ((2 : Nat) : ℚ)) / ((2 : Nat) : ℚ) ∧
      (get_thumbnail_size (mkContactSheetPDF (3840 : ℚ) 2160 2 3 7).canvas_size_.1
            (mkContactSheetPDF (3840 : ℚ) 2160 2 3 7).canvas_size_.2
            2 3 1920 1080).offset.1 =
        80 + (get_thumbnail_size
            (mkContactSheetPDF (3840 : ℚ) 2160 2 3 7).canvas_size_.1
            (mkContactSheetPDF (3840 : ℚ) 2160 2 3 7).canvas_size_.2
            2 3 1920 1080).gap.1 / 2 ∧
      (get_thumbnail_size (mkContactSheetPDF (3840 : ℚ) 2160 2 3 7).canvas_size_.1
            (mkContactSheetPDF (3840 : ℚ) 2160 2 3 7).canvas_size_.2
            2 3 1920 1080).offset.2 =
        80 + (get_thumbnail_size
            (mkContactSheetPDF (3840 : ℚ) 2160 2 3 7).canvas_size_.1
            (mkContactSheetPDF (3840 : ℚ) 2160 2 3 7).canvas_size_.2
            2 3 1920 1080).gap.2 / 2 ∧
      (get_thumbnail_size 100 100 1 1 1 10).gap.2 < 0) :=
  ⟨⟨by decide, by decide⟩,
    C4_gap_offset 3840 2160 2 3 7 1920 1080 (by decide) (by decide)⟩

/-- C10.  For `rows ≥ 1`, `cols ≥ 1`, a first image with `iw ≥ 1`, `ih ≥ 1`
and a nonnegative canvas width, the horizontal gap is nonnegative: the
thumbnail width never exceeds `canvas_x / cols`, so thumbnail overlap can
only ever arise on the vertical axis. -/
theorem C10_gap_x_nonneg (canvas_x canvas_y : ℚ) (rows cols : Nat) (iw ih : ℤ)
    (_hr : 1 ≤ rows) (hc : 1 ≤ cols) (_hiw : 1 ≤ iw) (_hih : 1 ≤ ih)
    (hcx : 0 ≤ canvas_x) :
    0 ≤ (get_thumbnail_size canvas_x canvas_y rows cols iw ih).gap.1 := by
  have hcq : (0 : ℚ) < (cols : ℚ) := by
    have h1 : (1 : ℚ) ≤ (cols : ℚ) := by exact_mod_cast hc
    linarith
  have key : ∀ ov : ℚ, 0 ≤ ov →
      (if canvas_x / ((cols : ℚ) + ov) ≤ canvas_y / ((rows : ℚ) + ov)
        then canvas_x / ((cols : ℚ) + ov) else canvas_y / ((rows : ℚ) + ov)) ≤
        canvas_x / (cols : ℚ) := by
    intro ov hov
    have h1 : canvas_x / ((cols : ℚ) + ov) ≤ canvas_x / (cols : ℚ) := by
      gcongr
      linarith
    split_ifs with h9
    · exact h1
    · exact le_trans (le_of_lt (lt_of_not_le h9)) h1
  have hov : (0 : ℚ) ≤ if 2 < (iw : ℚ) / (ih : ℚ) then (0 : ℚ) else 1 / 4 := by
    split_ifs <;> norm_num
  have htx : (get_thumbnail_size canvas_x canvas_y rows cols iw ih).thumb.1 ≤
      canvas_x / (cols : ℚ) :=
    key (if 2 < (iw : ℚ) / (ih : ℚ) then (0 : ℚ) else 1 / 4) hov
  have htc : (get_thumbnail_size canvas_x canvas_y rows cols iw ih).thumb.1 *
      (cols : ℚ) ≤ canvas_x := (le_div_iff₀ hcq).mp htx
  exact div_nonneg (sub_nonneg.mpr htc) hcq.le

/-- Witness for C10 at the spec's example configuration. -/
theorem C10_gap_x_nonneg_witness :
    (1 ≤ 2 ∧ 1 ≤ 3 ∧ (1 : ℤ) ≤ 1920 ∧ (1 : ℤ) ≤ 1080 ∧ (0 : ℚ) ≤ 3680) ∧
    0 ≤ (get_thumbnail_size 3680 2000 2 3 1920 1080).gap.1 :=
  ⟨⟨by decide, by decide, by decide, by decide, by decide⟩,
    C10_gap_x_nonneg 3680 2000 2 3 1920 1080 (by decide) (by decide) (by decide)
      (by decide) (by decide)⟩

/-- `pipeToNul` holds reflexively along a list. -/
lemma pipeToNul_refl (l : List Char) : List.Forall₂ pipeToNul l l := by
  induction l with
  | nil => exact List.Forall₂.nil
  | cons ch t ih => exact List.Forall₂.cons (Or.inl rfl) ih

/-- `itemPreserved` holds reflexively along a list of items. -/
lemma itemPreserved_refl (l : List ContactSheetItem) :
    List.Forall₂ itemPreserved l l := by
  induction l with
  | nil => exact List.Forall₂.nil
  | cons it t ih =>
    exact List.Forall₂.cons ⟨rfl, rfl, pipeToNul_refl it.data⟩ ih

/-- The delimiter-skipping phase splits the buffer without modifying it. -/
lemma delimSkip_append (s : List Char) : (delimSkip s).1 ++ (delimSkip s).2 = s := by
  induction s with
  | nil => rfl
  | cons ch t ih =>
    by_cases h : ch = '|'
    · simp only [delimSkip, if_pos h, List.cons_append, ih]
    · simp [delimSkip, h]

/-- The token-scanning phase consumes a prefix of the buffer, changing at
most one pipe delimiter to NUL. -/
lemma tokenScan_spec (s : List Char) :
    ∃ pre, s = pre ++ (tokenScan s).2 ∧ List.Forall₂ pipeToNul pre (tokenScan s).1 := by
  induction s with
  | nil => exact ⟨[], rfl, List.Forall₂.nil⟩
  | cons ch t ih =>
    by_cases h : ch = '|'
    · refine ⟨[ch], by simp [tokenScan, h], ?_⟩
      simp only [tokenScan, if_pos h]
      exact List.Forall₂.cons (Or.inr ⟨h, rfl⟩) List.Forall₂.nil
    · obtain ⟨pre, hpre, hf⟩ := ih
      refine ⟨ch :: pre, ?_, ?_⟩
      · simp only [tokenScan, if_neg h, List.cons_append]
        exact congrArg (ch :: ·) hpre
      · simp only [tokenScan, if_neg h]
        exact List.Forall₂.cons (Or.inl rfl) hf

/-- One `strtok_s` call consumes a prefix of the buffer, changing at most
one pipe delimiter to NUL. -/
lemma strtokStep_spec (s c r : List Char) (h : strtokStep s = some (c, r)) :
    ∃ pre, s = pre ++ r ∧ List.Forall₂ pipeToNul pre c := by
  unfold strtokStep at h
  rcases hd2 : (delimSkip s).2 with _ | ⟨x, xs⟩
  · rw [show delimSkip s = ((delimSkip s).1, (delimSkip s).2) from rfl, hd2] at h
    exact Option.noConfusion h
  · rw [show delimSkip s = ((delimSkip s).1, (delimSkip s).2) from rfl, hd2] at h
    have h' : ((delimSkip s).1 ++ (tokenScan (x :: xs)).1, (tokenScan (x :: xs)).2) =
        (c, r) := Option.some.inj h
    rw [Prod.mk.injEq] at h'
    obtain ⟨hc, hr⟩ := h'
    obtain ⟨pre, hpre, hf⟩ := tokenScan_spec (x :: xs)
    have h9 : s = (delimSkip s).1 ++ (x :: xs) := by
      rw [← hd2]; exact (delimSkip_append s).symm
    have h10 : x :: xs = pre ++ r := by rw [hpre, hr]
    refine ⟨(delimSkip s).1 ++ pre, ?_, ?_⟩
    · rw [List.append_assoc]
      exact h9.trans (congrArg ((delimSkip s).1 ++ ·) h10)
    · rw [← hc]
      exact List.rel_append (pipeToNul_refl (delimSkip s).1) hf

/-- Any number of further `strtok_s` calls leave a buffer related to the
original pointwise by `pipeToNul`. -/
lemma strtokLoop_forall₂ (n : Nat) (s : List Char) :
    List.Forall₂ pipeToNul s (strtokLoop n s) := by
  induction n generalizing s with
  | zero => exact pipeToNul_refl s
  | succ n ih =>
    simp only [strtokLoop]
    rcases hst : strtokStep s with _ | ⟨c, r⟩
    · exact pipeToNul_refl s
    · obtain ⟨pre, hpre, hf⟩ := strtokStep_spec s c r hst
      rw [hpre]
      exact List.rel_append hf (ih r)

/-- The full tokenization performed by `draw_thumbnail` only overwrites pipe
delimiters with NUL, character for character. -/
lemma drawThumbData_forall₂ (s : List Char) :
    List.Forall₂ pipeToNul s (drawThumbData s) := by
  cases s with
  | nil => exact List.Forall₂.nil
  | cons ch t =>
    simp only [drawThumbData]
    rcases hst : strtokStep (ch :: t) with _ | ⟨c, r⟩
    · exact pipeToNul_refl _
    · obtain ⟨pre, hpre, hf⟩ := strtokStep_spec _ c r hst
      rw [hpre]
      exact List.rel_append hf (strtokLoop_forall₂ 4 r)

/-- Updating any subset of items through `drawItem` preserves every item in
the `itemPreserved` sense. -/
lemma updateItems_forall₂ (drawnIdx : List Nat) (k : Nat)
    (items : List ContactSheetItem) :
    List.Forall₂ itemPreserved items (updateItems drawnIdx k items) := by
  induction items generalizing k with
  | nil => exact List.Forall₂.nil
  | cons it rest ih =>
    simp only [updateItems]
    refine List.Forall₂.cons ?_ (ih (k + 1))
    by_cases h : k ∈ drawnIdx
    · rw [if_pos h]
      exact ⟨rfl, rfl, drawThumbData_forall₂ it.data⟩
    · rw [if_neg h]
      exact ⟨rfl, rfl, pipeToNul_refl it.data⟩

/-- C8 counterexample.  One `add_newpage` call on a single item whose
annotation contains a pipe modifies the caller-supplied item record: the
claim that the item records are never modified fails. -/
theorem C8_items_counterexample :
    add_newpage_items (mkContactSheetPDF 3840 2160 1 1 1) (fun _ => true) 0
        [{ name := ['a'], path := ['p'], data := ['a', '|', 'b'] }] ≠
      [{ name := ['a'], path := ['p'], data := ['a', '|', 'b'] }] := by
  decide

/-- C8 amended.  After any `add_newpage` call, every item's `name` and
`path` equal their construction values, and every character of `data` is
unchanged except that pipe delimiters consumed by the annotation tokenizer
are overwritten with NUL (in particular the length is preserved and a
pipe-free annotation is untouched). -/
theorem C8_items_preserved_amended (s : ContactSheetPDF) (loadOk : Nat → Bool)
    (pagenum : Nat) (items : List ContactSheetItem) :
    List.Forall₂ itemPreserved items (add_newpage_items s loadOk pagenum items) := by
  unfold add_newpage_items
  rcases add_newpage s loadOk pagenum with _ | out
  · exact itemPreserved_refl items
  · exact updateItems_forall₂ (out.drawn.map fun t => t.1) 0 items

/-- The global indices attempted on a page form the contiguous range
starting at `start`. -/
lemma pageCells_map_fst (rows cols start len : Nat) (hc : 1 ≤ cols)
    (h : start < len) :
    (pageCells rows cols start len).map (fun t => t.1) =
      List.range' start (min (rows * cols) (len - start)) := by
  rw [pageCells_eq rows cols start len hc h, List.map_map,
    List.range'_eq_map_range]
  rfl

/-- `add_newpage`, on a constructed sheet with fitting capacity, a start
index inside the item list and a loadable first item, returns the page with
the loop's attempts and the filter of successfully drawn cells. -/
lemma add_newpage_mk_eq (page_x page_y : ℚ) (rows cols len p : Nat)
    (loadOk : Nat → Bool) (hfit : rows * cols < U32) (hlen : len < U32)
    (hstart_lt : p * (rows * cols) < len) (hl0 : loadOk 0 = true) :
    add_newpage (mkContactSheetPDF page_x page_y rows cols len) loadOk p =
      some { frameDrawn := true
             attempted := pageCells rows cols (p * (rows * cols)) len
             drawn := (pageCells rows cols (p * (rows * cols)) len).filter
               fun t => loadOk t.1 } := by
  have hbp : (mkContactSheetPDF page_x page_y rows cols len).bypage_ =
      rows * cols := Nat.mod_eq_of_lt hfit
  have hcond : ¬ (p = 0 ∧ loadOk 0 = false) := by simp [hl0]
  simp only [add_newpage, hbp, if_neg hcond]
  rw [Nat.mod_eq_of_lt (lt_trans hstart_lt hlen)]
  rfl

/-- C6.  If an item `i` inside page `p`'s range has a failing image
pipeline, that page still attempts every item of its range in order, cell
`i` is left blank (not drawn) while every attempted item with a succeeding
pipeline is drawn, `add_newpage` still succeeds, and the document run
reports a positive non-fatal warning count that does not affect the save
outcome. -/
theorem C6_load_failure_is_non_fatal (page_x page_y : ℚ) (rows cols len p i : Nat)
    (loadOk : Nat → Bool) (saveRes : ℤ)
    (hr : 1 ≤ rows) (hc : 1 ≤ cols) (hfit : rows * cols < U32) (hlen : len < U32)
    (hlen0 : 0 < len) (hl0 : loadOk 0 = true)
    (hp : p < (mkContactSheetPDF page_x page_y rows cols len).totpages_)
    (hi_lo : p * (rows * cols) ≤ i) (hi_hi : i < min ((p + 1) * (rows * cols)) len)
    (hifail : loadOk i = false) :
    ∃ out, add_newpage (mkContactSheetPDF page_x page_y rows cols len) loadOk p =
        some out ∧
      out.attempted.map (fun t => t.1) =
        List.range' (p * (rows * cols))
          (min ((p + 1) * (rows * cols)) len - p * (rows * cols)) ∧
      (∀ t ∈ out.attempted, (t ∈ out.drawn ↔ loadOk t.1 = true)) ∧
      i ∈ out.attempted.map (fun t => t.1) ∧
      i ∉ out.drawn.map (fun t => t.1) ∧
      0 < (create_contact_sheet_pdf (mkContactSheetPDF page_x page_y rows cols len)
          true loadOk saveRes).warningCount ∧
      ((create_contact_sheet_pdf (mkContactSheetPDF page_x page_y rows cols len)
          true loadOk saveRes).success = true ↔ saveRes = 0) := by
  have hK : 0 < rows * cols := Nat.mul_pos hr hc
  have hT := mk_totpages_eq_ceil page_x page_y rows cols len hK hfit
  have hp' : p < (len + rows * cols - 1) / (rows * cols) := by rw [← hT]; exact hp
  have hstart : p * (rows * cols) < len := page_start_lt rows cols len p hK hlen0 hp'
  have hsm : (p + 1) * (rows * cols) = p * (rows * cols) + rows * cols :=
    Nat.succ_mul p (rows * cols)
  have hcount : min ((p + 1) * (rows * cols)) len - p * (rows * cols) =
      min (rows * cols) (len - p * (rows * cols)) := by omega
  refine ⟨_, add_newpage_mk_eq page_x page_y rows cols len p loadOk hfit hlen
    hstart hl0, ?_, ?_, ?_, ?_, ?_, ?_⟩
  · rw [pageCells_map_fst rows cols (p * (rows * cols)) len hc hstart, hcount]
  · intro t ht
    constructor
    · intro hd
      exact (List.mem_filter.mp hd).2
    · intro hok
      exact List.mem_filter.mpr ⟨ht, hok⟩
  · rw [pageCells_map_fst rows cols (p * (rows * cols)) len hc hstart]
    rw [List.mem_range'_1]
    omega
  · intro hmem
    rw [List.mem_map] at hmem
    obtain ⟨t, htf, hti⟩ := hmem
    have hok : loadOk t.1 = true := (List.mem_filter.mp htf).2
    rw [hti] at hok
    rw [hifail] at hok
    exact Bool.noConfusion hok
  · have hcond : ¬ (0 <
        (mkContactSheetPDF page_x page_y rows cols len).totpages_ ∧
        loadOk 0 = false) := by simp [hl0]
    simp only [create_contact_sheet_pdf, Bool.true_eq_false, if_neg hcond, if_neg
      (by simp : ¬ (true = false))]
    have hiw : i ∈ (List.range len).filter fun j => ! loadOk j :=
      List.mem_filter.mpr ⟨List.mem_range.mpr (by omega), by simp [hifail]⟩
    exact List.length_pos_of_mem hiw
  · have hcond : ¬ (0 <
        (mkContactSheetPDF page_x page_y rows cols len).totpages_ ∧
        loadOk 0 = false) := by simp [hl0]
    simp only [create_contact_sheet_pdf, if_neg hcond, if_neg
      (by simp : ¬ (true = false))]
    by_cases hs : saveRes = 0 <;> simp [save_document, hs]

/-- Witness for C6 at `rows = 1`, `cols = 2`, `N = 2`, `p = 0`, with item 1
failing to load and a successful save. -/
theorem C6_load_failure_is_non_fatal_witness :
    ((fun j : Nat => decide (j = 0)) 1 = false) ∧
    ∃ out, add_newpage (mkContactSheetPDF 3840 2160 1 2 2)
        (fun j => decide (j = 0)) 0 = some out ∧
      out.attempted.map (fun t => t.1) =
        List.range' (0 * (1 * 2)) (min ((0 + 1) * (1 * 2)) 2 - 0 * (1 * 2)) ∧
      (∀ t ∈ out.attempted, (t ∈ out.drawn ↔ (fun j => decide (j = 0)) t.1 = true)) ∧
      1 ∈ out.attempted.map (fun t => t.1) ∧
      1 ∉ out.drawn.map (fun t => t.1) ∧
      0 < (create_contact_sheet_pdf (mkContactSheetPDF 3840 2160 1 2 2)
          true (fun j => decide (j = 0)) 0).warningCount ∧
      ((create_contact_sheet_pdf (mkContactSheetPDF 3840 2160 1 2 2)
          true (fun j => decide (j = 0)) 0).success = true ↔ (0 : ℤ) = 0) :=
  ⟨by decide,
    C6_load_failure_is_non_fatal 3840 2160 1 2 2 0 1 (fun j => decide (j = 0)) 0
      (by decide) (by decide) (by decide) (by decide) (by decide) (by decide)
      (by decide) (by decide) (by decide) (by decide)⟩

/-- C9.  `save_document` returns true exactly when the underlying save call
returns status 0; `free_document` is invoked on every path of the document
run; with a created document the handle is released exactly once (no double
free, no leak); and a failing save yields a failed run with the handle still
released exactly once. -/
theorem C9_save_failure_reported_and_freed (s : ContactSheetPDF)
    (loadOk : Nat → Bool) (saveRes : ℤ) :
    (save_document saveRes = true ↔ saveRes = 0) ∧
    (∀ createOk : Bool,
      (create_contact_sheet_pdf s createOk loadOk saveRes).freeInvoked = true) ∧
    (create_contact_sheet_pdf s true loadOk saveRes).freeCount = 1 ∧
    (saveRes ≠ 0 →
      (create_contact_sheet_pdf s true loadOk saveRes).success = false ∧
      (create_contact_sheet_pdf s true loadOk saveRes).freeCount = 1) := by
  refine ⟨?_, ?_, ?_, ?_⟩
  · by_cases hs : saveRes = 0 <;> simp [save_document, hs]
  · intro createOk
    by_cases hcnd : 0 < s.totpages_ ∧ loadOk 0 = false
    · cases createOk <;> simp [create_contact_sheet_pdf, hcnd]
    · cases createOk <;> simp [create_contact_sheet_pdf, hcnd]
  · by_cases hcnd : 0 < s.totpages_ ∧ loadOk 0 = false
    · simp [create_contact_sheet_pdf, hcnd]
    · simp [create_contact_sheet_pdf, hcnd]
  · intro hs
    by_cases hcnd : 0 < s.totpages_ ∧ loadOk 0 = false
    · simp [create_contact_sheet_pdf, hcnd]
    · simp [create_contact_sheet_pdf, hcnd, save_document, hs]

/-- Witness for C9 with a failing save status 5 on a `2 × 3`, 7-item
document. -/
theorem C9_save_failure_reported_and_freed_witness :
    ((5 : ℤ) ≠ 0) ∧
    ((create_contact_sheet_pdf (mkContactSheetPDF 3840 2160 2 3 7) true
        (fun _ => true) 5).success = false ∧
      (create_contact_sheet_pdf (mkContactSheetPDF 3840 2160 2 3 7) true
        (fun _ => true) 5).freeCount = 1) :=
  ⟨by decide,
    (C9_save_failure_reported_and_freed (mkContactSheetPDF 3840 2160 2 3 7)
      (fun _ => true) 5).2.2.2 (by decide)⟩

end ContactSheet
